import Mathlib

/-! Shallow embedding of the Thing-runtime core of `wot-esp-hal-demo`
(`src/bin/thermometer.rs`, `src/bin/light.rs`, `src/bin/button.rs`,
`src/bin/async_main.rs`, `src/lib.rs`), together with proofs settling the
specification claims about it.

The change-notification primitive used by all variants is
`embassy_sync::watch::Watch<M, T, N>`: a single-slot, latest-value
broadcast cell.  The slot holds at most one value; `N` bounds the number
of concurrently live receivers, not the history depth.  `send` overwrites
the slot and bumps a message id; `Receiver::changed` suspends until the
message id is newer than the receiver's cursor, then returns the current
value and advances the cursor.  The model below mirrors those semantics
with explicit state passing; suspension is modelled by `changed` returning
`none` when no newer message exists.
-/

/-- State of `embassy_sync::watch::Watch<M, T, N>`: the single retained
value (`none` before the first send), a message id incremented by every
send, and the number of live receivers (bounded by `N`). -/
structure Watch (T : Type) (N : Nat) where
  value : Option T
  msgId : Nat
  receiverCount : Nat
deriving DecidableEq, Repr

/-- Rust `Watch::new()`: empty slot, no messages, no receivers. -/
def Watch.new (T : Type) (N : Nat) : Watch T N :=
  { value := none, msgId := 0, receiverCount := 0 }

/-- Rust `Sender::send(v)`: overwrite the single slot with `v` and bump the
message id.  Never blocks and never depends on receiver progress. -/
def Watch.send {T : Type} {N : Nat} (w : Watch T N) (v : T) : Watch T N :=
  { w with value := some v, msgId := w.msgId + 1 }

/-- A receiver cursor: the message id of the last value this receiver has
observed (`embassy_sync::watch::Receiver`, field `at_id`). -/
structure Rcv where
  atId : Nat
deriving DecidableEq, Repr

/-- Rust `Watch::receiver()`: hand out a new receiver if fewer than `N` are
live, incrementing the receiver count; otherwise return `none`.  A fresh
receiver starts with cursor `0`. -/
def Watch.receiver {T : Type} {N : Nat} (w : Watch T N) :
    Option (Watch T N × Rcv) :=
  if w.receiverCount < N then
    some ({ w with receiverCount := w.receiverCount + 1 }, { atId := 0 })
  else
    none

/-- Rust `Receiver::changed()`: if a message newer than the cursor exists,
return the current (latest) value and advance the cursor to the current
message id; otherwise the call would suspend, modelled as `none`. -/
def Watch.changed {T : Type} {N : Nat} (w : Watch T N) (r : Rcv) :
    Option (T × Rcv) :=
  if r.atId < w.msgId then
    w.value.map (fun v => (v, { atId := w.msgId }))
  else
    none

/-- Transient device fault of the shtc3 driver
(`shtcx::Error<esp_hal::i2c::master::Error>`): an I2C bus error or a
checksum failure. -/
inductive DeviceError
  | i2c
  | crc
deriving DecidableEq, Repr

/-- One poll cycle of `temperature_write_task` (thermometer.rs, lines
107-120) after the 15 s timer tick: read the sensor; on `Ok(t)` call
`sender.send(t)`, on `Err` do nothing.  No comparison with any previously
published value is made. -/
def temperature_write_task_cycle {T : Type} {N : Nat}
    (reading : Except DeviceError T) (w : Watch T N) : Watch T N :=
  match reading with
  | .ok t => w.send t
  | .error _ => w

/-- The update-task loop run over a finite list of successive sensor
readings, threading the Watch state. -/
def runPollCycles {T : Type} {N : Nat} :
    List (Except DeviceError T) → Watch T N → Watch T N
  | [], w => w
  | r :: rest, w => runPollCycles rest (temperature_write_task_cycle r w)

/-- Number of successful readings in a list. -/
def countOk {T : Type} : List (Except DeviceError T) → Nat
  | [] => 0
  | .ok _ :: rest => countOk rest + 1
  | .error _ :: rest => countOk rest

/-- The successful readings' values, in order. -/
def okValues {T : Type} : List (Except DeviceError T) → List T
  | [] => []
  | .ok v :: rest => v :: okValues rest
  | .error _ :: rest => okValues rest

/-- Three consecutive successful readings of the identical value 20
(pairwise difference exactly zero, hence zero under any rounding). -/
def c1Readings : List (Except DeviceError Int) := [.ok 20, .ok 20, .ok 20]

/-! Section: Interleaved producer/subscriber schedules over the Watch

To reason about what a single event-stream subscriber observes, a
schedule interleaves `publish` steps of the update task (`Sender::send`)
with `read` steps of the subscriber (`Receiver::changed`). -/

/-- One step of an interleaved schedule: the producer publishes a value,
or the subscriber attempts a `changed()` read. -/
inductive ChanStep (T : Type)
  | publish (v : T)
  | read
deriving DecidableEq, Repr

/-- Run a schedule against the Watch, returning the values the subscriber
observes in order.  A `read` that finds no newer message observes nothing
(the real call would suspend until the next send). -/
def runSchedule {T : Type} {N : Nat} :
    Watch T N → Rcv → List (ChanStep T) → List T
  | _, _, [] => []
  | w, r, .publish v :: rest => runSchedule (w.send v) r rest
  | w, r, .read :: rest =>
    match w.changed r with
    | some (v, r') => v :: runSchedule w r' rest
    | none => runSchedule w r rest

/-- The values published by a schedule, in order. -/
def publishedValues {T : Type} : List (ChanStep T) → List T
  | [] => []
  | .publish v :: rest => v :: publishedValues rest
  | .read :: rest => publishedValues rest

/-- Predicate `spaced pending steps`: holds when the subscriber never falls behind
the producer by more than one emission: at most one publish is
outstanding (unread) at any point, and none is outstanding at the end.
`pending` records whether an unread publish is currently outstanding. -/
def spaced {T : Type} : Bool → List (ChanStep T) → Bool
  | pending, [] => !pending
  | _, .read :: rest => spaced false rest
  | pending, .publish _ :: rest => !pending && spaced true rest

/-- A concrete schedule in which the subscriber stays at most one
emission behind: publish 3, read, publish 4, read. -/
def c2DemoSchedule : List (ChanStep Int) :=
  [.publish 3, .read, .publish 4, .read]

/-- A concrete schedule in which two publishes happen before the
subscriber reads: the single-slot Watch then only delivers the latest. -/
def c2LossSchedule : List (ChanStep Int) :=
  [.publish 1, .publish 2, .read, .read]

/-! Section: HTTP surface -/

/-- An HTTP response as produced by the picoserve handlers in this
repository: status code, body, and the explicitly set `Content-Type`
header (`none` when the handler sets no such header and the transport
default applies). -/
structure HttpResponse where
  status : Nat
  body : String
  contentType : Option String
deriving DecidableEq, Repr

/-- Status `StatusCode::NO_CONTENT`. -/
def NO_CONTENT : Nat := 204

/-- Status `StatusCode::INTERNAL_SERVER_ERROR`. -/
def INTERNAL_SERVER_ERROR : Nat := 500

/-- Outcome of a route in the button variant: a plain response or a
redirect (`picoserve::response::Redirect::to`). -/
inductive RouteResult
  | response (r : HttpResponse)
  | redirectTo (location : String)
deriving DecidableEq, Repr

/-- The `serde_json` encoding of a boolean. -/
def jsonBool (b : Bool) : String := if b then "true" else "false"

/-- Helper `to_json_response` (lib.rs lines 75-78, light.rs lines 286-289)
specialised to a pre-rendered JSON body: `Response::ok(body)` with header
`Content-Type: application/json`. -/
def to_json_response (body : String) : HttpResponse :=
  { status := 200, body := body, contentType := some "application/json" }

/-- Thermometer `GET /.well-known/wot` handler (thermometer.rs lines
333-338): `Response::ok(state.td)` with header
`Content-Type: application/td+json`. -/
def thermometer_wellknown_handler (td : String) : HttpResponse :=
  { status := 200, body := td, contentType := some "application/td+json" }

/-- Light `GET /.well-known/wot` handler (light.rs lines 293-298):
`Response::ok(state.td)` with header `Content-Type: application/json`. -/
def light_wellknown_handler (td : String) : HttpResponse :=
  { status := 200, body := td, contentType := some "application/json" }

/-- Button `GET /` handler (button.rs lines 52-57): the Thing Description
with header `Content-Type: application/td+json`. -/
def button_root_handler (td : String) : RouteResult :=
  .response { status := 200, body := td, contentType := some "application/td+json" }

/-- Button `GET /.well-known/wot` handler (button.rs line 58):
`Redirect::to("/")`. -/
def button_wellknown_handler : RouteResult := .redirectTo "/"

/-- async_main `GET /.well-known/wot` handler (async_main.rs line 234):
returns the bare `&str` Thing Description with no explicit
`Content-Type` header. -/
def async_main_wellknown_handler (td : String) : HttpResponse :=
  { status := 200, body := td, contentType := none }

/-- What the spec asserts every variant serves: the TD body under
`application/td+json`. -/
def tdResponse (td : String) : HttpResponse :=
  { status := 200, body := td, contentType := some "application/td+json" }

/-! Section: Thermometer property read handlers -/

/-- The `GET /properties/temperature` handler body (thermometer.rs lines
339-356), parametric in the wire rendering of the measured value
(`format!` on the `f32`): on `Ok(t)` a 200 response whose body is the
rendered value with `Content-Type: application/json`; on `Err` a 500
response with a fixed plain-text message. -/
def temperature_get_handler {T : Type} (render : T → String)
    (result : Except DeviceError T) : HttpResponse :=
  match result with
  | .ok t =>
    { status := 200, body := render t, contentType := some "application/json" }
  | .error _ =>
    { status := INTERNAL_SERVER_ERROR
      body := "Failed to read temperature value."
      contentType := some "text/plain" }

/-- The `GET /properties/humidity` handler body (thermometer.rs lines
357-374), analogous to the temperature handler. -/
def humidity_get_handler {T : Type} (render : T → String)
    (result : Except DeviceError T) : HttpResponse :=
  match result with
  | .ok h =>
    { status := 200, body := render h, contentType := some "application/json" }
  | .error _ =>
    { status := INTERNAL_SERVER_ERROR
      body := "Failed to read humidity value."
      contentType := some "text/plain" }

/-! Section: Light variant (light.rs) -/

/-- An 8-bit RGB colour (`smart_leds::RGB8`); components are bytes. -/
structure RGB8 where
  r : Nat
  g : Nat
  b : Nat
deriving DecidableEq, Repr

/-- Colour `smart_leds::colors::WHITE`. -/
def WHITE : RGB8 := { r := 255, g := 255, b := 255 }

/-- Failure of the RMT smart-LED write.  Modelled from the spec: the
Device Driver Adapter's `write` "may fail transiently (bus error)"
(spec 4.1); the adapter itself (`src/smartled.rs`) is declared in lib.rs
but its body is not under `src/`. -/
inductive LedWriteError
  | transmission
deriving DecidableEq, Repr

/-- A panic aborting the whole process (`Result::unwrap` on `Err` under
`no_std` with `esp_backtrace`). -/
inductive Panic
  | unwrapFailed
deriving DecidableEq, Repr

/-- The device-facing state of the `Light` struct (light.rs lines 41-46):
the `on` flag, colour and brightness.  The LED adapter handle is the
external collaborator whose write outcome is passed in explicitly. -/
structure Light where
  «on» : Bool
  color : RGB8
  brightness : Nat
deriving DecidableEq, Repr

/-- The initial light state (light.rs lines 263-271): off, brightness
100, colour white. -/
def light0 : Light := { «on» := false, color := WHITE, brightness := 100 }

/-- The brightness actually driven onto the LED by `Light::update`:
`self.brightness` when on, `0` when off. -/
def Light.effectiveBrightness (l : Light) : Nat :=
  if l.«on» then l.brightness else 0

/-- Method `Light::update` (light.rs lines 49-54): write the gamma-corrected
colour at the effective brightness to the LED and `.unwrap()` the result,
so a failed device write panics the process instead of surfacing an
error. -/
def Light.update (l : Light) (ledResult : Except LedWriteError Unit) :
    Except Panic Light :=
  match ledResult with
  | .ok _ => .ok l
  | .error _ => .error .unwrapFailed

/-- Method `Light::power` (light.rs lines 55-58): set `on` then `update`. -/
def Light.power (l : Light) («on» : Bool)
    (ledResult : Except LedWriteError Unit) : Except Panic Light :=
  Light.update { l with «on» := «on» } ledResult

/-- Method `Light::brightness` (light.rs lines 59-62): set `brightness` then
`update`. -/
def Light.setBrightness (l : Light) (b : Nat)
    (ledResult : Except LedWriteError Unit) : Except Panic Light :=
  Light.update { l with brightness := b } ledResult

/-- Method `Light::rgb` (light.rs lines 63-66): set `color` then `update`. -/
def Light.rgb (l : Light) (rgb : RGB8)
    (ledResult : Except LedWriteError Unit) : Except Panic Light :=
  Light.update { l with color := rgb } ledResult

/-- Route `PUT /properties/on` handler (light.rs lines 304-309):
`light.lock().await.power(on); StatusCode::NO_CONTENT`.  Returns the new
light state and status, or the panic raised by `update`'s unwrap. -/
def light_putOn_handler (l : Light) (body : Bool)
    (ledResult : Except LedWriteError Unit) : Except Panic (Light × Nat) :=
  (Light.power l body ledResult).map (fun l' => (l', NO_CONTENT))

/-- Route `PUT /properties/brightness` handler (light.rs lines 316-320). -/
def light_putBrightness_handler (l : Light) (body : Nat)
    (ledResult : Except LedWriteError Unit) : Except Panic (Light × Nat) :=
  (Light.setBrightness l body ledResult).map (fun l' => (l', NO_CONTENT))

/-- Route `PUT /properties/color` handler (light.rs lines 328-332). -/
def light_putColor_handler (l : Light) (body : RGB8)
    (ledResult : Except LedWriteError Unit) : Except Panic (Light × Nat) :=
  (Light.rgb l body ledResult).map (fun l' => (l', NO_CONTENT))

/-- Route `GET /properties/on` handler (light.rs lines 300-303):
`to_json_response(&light.on)`. -/
def light_getOn_handler (l : Light) : HttpResponse :=
  to_json_response (jsonBool l.«on»)

/-- The light state reached by `PUT /properties/on` with body `true`
from the initial state, when the device write succeeds. -/
def lightAfterPutTrue : Light := { light0 with «on» := true }

/-! Section: Event stream handler (`Events::write_events`)

Shared by thermometer.rs (lines 143-164) and button.rs (lines 123-144):
each loop iteration waits up to 15 s on `Receiver::changed`; a value
within the timeout is written as a named `value_changed` event with the
value's `to_string()` rendering; a timeout writes a keepalive frame; a
transport write error propagates via `?` and ends the handler. -/

/-- The fixed wait used by `with_timeout` in `write_events`, seconds. -/
def SSE_TIMEOUT_SECS : Nat := 15

/-- A server-sent-events frame produced by `write_events`. -/
inductive SseFrame
  | valueChanged (payload : String)
  | keepalive
deriving DecidableEq, Repr

/-- Outcome of writing one frame to the transport. -/
inductive WriteOutcome
  | success
  | writeError
deriving DecidableEq, Repr

/-- Result of one iteration of the `write_events` loop: the single frame
handed to the writer, and whether the loop continues (it stops exactly
when the transport write fails and `?` returns the error). -/
structure SseIterResult where
  frame : SseFrame
  continues : Bool
deriving DecidableEq, Repr

/-- One iteration of the `write_events` loop, parametric in the value
type and its `to_string` rendering.  `arrival = some v` models
`with_timeout` returning `Ok(v)` from `changed()` within 15 s;
`arrival = none` models the timeout.  `writeResult` is the transport's
response to the single frame written this iteration. -/
def write_events_iteration {T : Type} (render : T → String)
    (arrival : Option T) (writeResult : WriteOutcome) : SseIterResult :=
  match arrival with
  | some v =>
    { frame := .valueChanged (render v)
      continues := writeResult = WriteOutcome.success }
  | none =>
    { frame := .keepalive
      continues := writeResult = WriteOutcome.success }

/-! Section: Button variant (button.rs) -/

/-- Constant `WEB_TASK_POOL_SIZE` of the button variant (button.rs line 73). -/
def button_WEB_TASK_POOL_SIZE : Nat := 8

/-- The `N` parameter of the button variant's
`static WATCH: Watch<CriticalSectionRawMutex, bool, 2>` (button.rs line
104). -/
def button_WATCH_N : Nat := 2

/-- The `GET /events/on` route body (button.rs lines 66-69):
`WATCH.receiver().unwrap()` — a successful subscription yields the
receiver (wrapped in an `EventStream`); when all `N = 2` receiver slots
are taken, `receiver()` is `None` and the `unwrap` panics the whole
process. -/
def button_events_handler (w : Watch Bool 2) :
    Except Panic (Watch Bool 2 × Rcv) :=
  match w.receiver with
  | some wr => .ok wr
  | none => .error .unwrapFailed

/-- The watch state after two successful `GET /events/on` subscriptions
starting from the freshly created `WATCH`. -/
def buttonWatchTwoSubs : Watch Bool 2 :=
  (((Watch.new Bool 2).receiver.bind (fun p => p.1.receiver)).map
    (fun p => p.1)).getD (Watch.new Bool 2)

/-- Rust `AtomicBool::fetch_not` (button.rs line 113): returns the previous
value and stores its negation. -/
def fetch_not (s : Bool) : Bool × Bool := (s, !s)

/-- One button press handled by `update_task` (button.rs lines 110-117):
`let on = !state.on.fetch_not(..)` toggles the shared flag and binds
`on` to the negated previous value, then `sender.send(on)` publishes it.
Returns the new flag state and the watch after the publish. -/
def button_update_step (flag : Bool) (w : Watch Bool 2) :
    Bool × Watch Bool 2 :=
  let prevNew := fetch_not flag
  let «on» := !prevNew.1
  (prevNew.2, w.send «on»)

/-- Button `GET /properties/on` handler (button.rs lines 60-64):
`to_json_response(&state.on.load(..))`. -/
def button_getOn_handler (flag : Bool) : HttpResponse :=
  to_json_response (jsonBool flag)

/-! Section: Claim C1 — debounce in the thermometer update task -/

/-- Claim C1, counterexample: three successful readings of the identical
value 20 (all pairwise differences are exactly zero, hence zero under any
rounding) produce three publishes on the Change Channel, not at most
one — `temperature_write_task` sends every successful reading. -/
theorem c1_counterexample :
    okValues c1Readings = [20, 20, 20] ∧
    (runPollCycles c1Readings (Watch.new Int 2)).msgId = 3 ∧
    ¬ (runPollCycles c1Readings (Watch.new Int 2)).msgId ≤ 1 := by
  decide

/-- Claim C1 (amended): `temperature_write_task` applies no debounce —
over any sequence of readings the number of publishes to the Change
Channel equals the number of successful readings, regardless of how the
read values compare to previously published ones. -/
theorem c1_publish_count_equals_ok_readings {T : Type} {N : Nat}
    (readings : List (Except DeviceError T)) :
    ∀ w : Watch T N,
      (runPollCycles readings w).msgId = w.msgId + countOk readings := by
  induction readings with
  | nil => intro w; rfl
  | cons r rest ih =>
    intro w
    cases r with
    | ok t =>
      simp only [runPollCycles, temperature_write_task_cycle, countOk, ih]
      simp [Watch.send]
      omega
    | error e =>
      simp only [runPollCycles, temperature_write_task_cycle, countOk, ih]

/-! Section: Claim C2 — retention and loss window of the Change Channel -/

/-- Claim C2, counterexample: after publishing 1 then 2 on a fresh Watch,
a subscriber that subscribed at creation and then reads twice observes
only `[2]`: the value 1 — one of the two most recent published events —
is never delivered, because the Watch retains a single slot (its `2`
parameter bounds the receiver count, not the history). -/
theorem c2_counterexample :
    runSchedule (Watch.new Int 2) { atId := 0 } c2LossSchedule = [2] ∧
    publishedValues c2LossSchedule = [1, 2] ∧
    ¬ (1 : Int) ∈ runSchedule (Watch.new Int 2) { atId := 0 } c2LossSchedule := by
  decide

/-- Auxiliary invariant for the schedule runner: starting in sync, a
schedule in which the subscriber is never more than one emission behind
delivers every published value; starting with exactly one outstanding
publish whose value is in the slot, the pending value is delivered first
and then every later published value. -/
theorem runSchedule_spaced_aux {T : Type} {N : Nat} :
    ∀ (steps : List (ChanStep T)) (w : Watch T N) (r : Rcv),
      (r.atId = w.msgId → spaced false steps = true →
        runSchedule w r steps = publishedValues steps) ∧
      (∀ v, w.msgId = r.atId + 1 → w.value = some v →
        spaced true steps = true →
        runSchedule w r steps = v :: publishedValues steps) := by
  intro steps
  induction steps with
  | nil =>
    intro w r
    refine ⟨fun _ _ => rfl, fun v h hv hs => ?_⟩
    simp [spaced] at hs
  | cons s rest ih =>
    intro w r
    cases s with
    | publish v =>
      refine ⟨?_, ?_⟩
      · intro hsync hs
        have hs' : spaced true rest = true := by simpa [spaced] using hs
        have h2 := (ih (w.send v) r).2 v (by simp [Watch.send, hsync])
          (by simp [Watch.send]) hs'
        simpa [runSchedule, publishedValues] using h2
      · intro v' h hv hs
        simp [spaced] at hs
    | read =>
      refine ⟨?_, ?_⟩
      · intro hsync hs
        have hs' : spaced false rest = true := by simpa [spaced] using hs
        have hnone : w.changed r = none := by simp [Watch.changed, hsync]
        have h1 := (ih w r).1 hsync hs'
        simp [runSchedule, hnone, publishedValues, h1]
      · intro v h hv hs
        have hs' : spaced false rest = true := by simpa [spaced] using hs
        have hchg : w.changed r = some (v, { atId := w.msgId }) := by
          simp [Watch.changed, hv, show r.atId < w.msgId from by omega]
        have h1 := (ih w { atId := w.msgId }).1 rfl hs'
        simp [runSchedule, hchg, publishedValues, h1]

/-- Claim C2 (amended): the Change Channel retains only the single most
recent published event (the `2` parameter of the `Watch` is the maximum
number of concurrent receivers, not a history depth); a subscriber that
starts in sync and never falls behind by more than one emission observes
every event published after its subscription point, in publish order. -/
theorem c2_behind_at_most_one_observes_all {T : Type} {N : Nat}
    (steps : List (ChanStep T)) (w : Watch T N) (r : Rcv)
    (hsync : r.atId = w.msgId) (hs : spaced false steps = true) :
    runSchedule w r steps = publishedValues steps :=
  (runSchedule_spaced_aux steps w r).1 hsync hs

/-- Claim C2, witness: on the concrete schedule publish 3, read,
publish 4, read — in which the subscriber stays at most one emission
behind — a fresh subscriber on a fresh Watch observes exactly the
published values. -/
theorem c2_witness :
    spaced false c2DemoSchedule = true ∧
    runSchedule (Watch.new Int 2) { atId := 0 } c2DemoSchedule =
      publishedValues c2DemoSchedule :=
  ⟨by decide,
    c2_behind_at_most_one_observes_all c2DemoSchedule (Watch.new Int 2)
      { atId := 0 } rfl (by decide)⟩

/-! Section: Claim C3 — PUT handlers of the light variant -/

/-- Claim C3, counterexample: a `PUT /properties/on` request whose device
write faults does not return 500 — `Light::update` unwraps the LED write
result, so the handler ends in a process-aborting panic. -/
theorem c3_counterexample :
    light_putOn_handler light0 true (.error LedWriteError.transmission) =
      .error Panic.unwrapFailed := by
  rfl

/-- Claim C3 (amended): every PUT handler of the light variant returns
204 No Content (with the corresponding field updated) when the device
write succeeds; when the device write faults, the handler panics through
`Result::unwrap` and crashes the process instead of returning 500. -/
theorem c3_put_handlers_success_204_fault_panics
    (l : Light) (b : Bool) (n : Nat) (c : RGB8) (e : LedWriteError) :
    light_putOn_handler l b (.ok ()) = .ok ({ l with «on» := b }, NO_CONTENT) ∧
    light_putOn_handler l b (.error e) = .error Panic.unwrapFailed ∧
    light_putBrightness_handler l n (.ok ()) =
      .ok ({ l with brightness := n }, NO_CONTENT) ∧
    light_putBrightness_handler l n (.error e) = .error Panic.unwrapFailed ∧
    light_putColor_handler l c (.ok ()) =
      .ok ({ l with color := c }, NO_CONTENT) ∧
    light_putColor_handler l c (.error e) = .error Panic.unwrapFailed :=
  ⟨rfl, rfl, rfl, rfl, rfl, rfl⟩

/-! Section: Claim C4 — event-stream frames and termination -/

/-- Claim C4 (confirmed): one iteration of `Events::write_events` writes
exactly one `value_changed` frame carrying the string rendering of the
received value when a change arrives within the 15 s timeout, exactly one
keepalive frame when the timeout elapses, and the loop stops (the `?`
propagates) exactly when the transport write fails. -/
theorem c4_write_events_frames_and_termination
    (T : Type) (render : T → String) (v : T) (wr : WriteOutcome) :
    (write_events_iteration render (some v) wr).frame =
      SseFrame.valueChanged (render v) ∧
    (write_events_iteration render none wr).frame = SseFrame.keepalive ∧
    ((write_events_iteration render (some v) wr).continues = false ↔
      wr = WriteOutcome.writeError) ∧
    ((write_events_iteration render none wr).continues = false ↔
      wr = WriteOutcome.writeError) := by
  cases wr <;> simp [write_events_iteration]

/-- Claim C4, witness: with the constant rendering of 7 and a successful
transport write, the iteration writes the `value_changed "7"` frame. -/
theorem c4_witness :
    (write_events_iteration (fun _ : Nat => "7") (some 7)
      WriteOutcome.success).frame = SseFrame.valueChanged "7" :=
  (c4_write_events_frames_and_termination Nat (fun _ => "7") 7
    WriteOutcome.success).1

/-! Section: Claim C5 — thermometer property reads -/

/-- Claim C5 (confirmed): `GET /properties/temperature` and
`GET /properties/humidity` return 200 with the rendered measured value as
the body when the sensor read succeeds, and 500 with a fixed error
message (a plain value, not a crash) when the sensor read fails. -/
theorem c5_property_get_handlers
    (T : Type) (render : T → String) (v : T) (e : DeviceError) :
    temperature_get_handler render (.ok v) =
      { status := 200, body := render v
        contentType := some "application/json" } ∧
    temperature_get_handler render (.error e) =
      { status := 500, body := "Failed to read temperature value."
        contentType := some "text/plain" } ∧
    humidity_get_handler render (.ok v) =
      { status := 200, body := render v
        contentType := some "application/json" } ∧
    humidity_get_handler render (.error e) =
      { status := 500, body := "Failed to read humidity value."
        contentType := some "text/plain" } :=
  ⟨rfl, rfl, rfl, rfl⟩

/-! Section: Claim C6 — write round-trip on the light's on property -/

/-- Claim C6 (confirmed): a `PUT /properties/on` with body `b` that
succeeds (no device fault) leaves the stored flag equal to `b`, so an
immediately following `GET /properties/on` returns the JSON encoding of
`b` with status 200. -/
theorem c6_put_get_round_trip (b : Bool) (l l' : Light) (code : Nat)
    (h : light_putOn_handler l b (.ok ()) = .ok (l', code)) :
    light_getOn_handler l' =
      { status := 200, body := jsonBool b
        contentType := some "application/json" } := by
  simp only [light_putOn_handler, Light.power, Light.update, Except.map,
    Except.ok.injEq, Prod.mk.injEq] at h
  obtain ⟨hl, _⟩ := h
  subst hl
  rfl

/-- Claim C6, witness: from the initial light state, `PUT` of `true`
followed by `GET` returns body `"true"`. -/
theorem c6_witness :
    light_putOn_handler light0 true (.ok ()) =
      .ok (lightAfterPutTrue, NO_CONTENT) ∧
    light_getOn_handler lightAfterPutTrue =
      { status := 200, body := jsonBool true
        contentType := some "application/json" } :=
  ⟨rfl, c6_put_get_round_trip true light0 lightAfterPutTrue NO_CONTENT rfl⟩

/-! Section: Claim C7 — device faults skip the publish and are not fatal -/

/-- Claim C7 (confirmed): a poll cycle whose device read fails leaves the
Change Channel untouched (no publish: same state, same message count),
and the task goes on to process the remaining cycles exactly as if the
faulting cycle had not occurred. -/
theorem c7_error_cycle_no_publish_and_continues {T : Type} {N : Nat}
    (e : DeviceError) (rest : List (Except DeviceError T)) (w : Watch T N) :
    temperature_write_task_cycle (.error e) w = w ∧
    (temperature_write_task_cycle (T := T) (N := N) (.error e) w).msgId =
      w.msgId ∧
    runPollCycles (.error e :: rest) w = runPollCycles rest w :=
  ⟨rfl, rfl, rfl⟩

/-! Section: Claim C8 — Thing Description routes -/

/-- Claim C8, counterexample: the light variant's `GET /.well-known/wot`
handler serves the Thing Description with content type
`application/json`, not `application/td+json`, so the claim fails for
the light variant. -/
theorem c8_counterexample :
    light_wellknown_handler "td" ≠ tdResponse "td" := by
  decide

/-- Claim C8 (amended): the thermometer variant serves the pre-built
Thing Description with content type `application/td+json` at
`/.well-known/wot`, and the button variant does so at `/` while
redirecting `/.well-known/wot` to `/`; the light variant serves the TD
body with content type `application/json`, and the async_main variant
serves it with no explicit content type. -/
theorem c8_td_routes_per_variant (td : String) :
    thermometer_wellknown_handler td = tdResponse td ∧
    button_root_handler td = .response (tdResponse td) ∧
    button_wellknown_handler = .redirectTo "/" ∧
    light_wellknown_handler td =
      { status := 200, body := td, contentType := some "application/json" } ∧
    async_main_wellknown_handler td =
      { status := 200, body := td, contentType := none } :=
  ⟨rfl, rfl, rfl, rfl, rfl⟩

/-! Section: Claim C9 — subscriber slots in the button variant -/

/-- Claim C9 (confirmed): the button variant's `GET /events/on` route
succeeds only while fewer than two receivers are live (so at most two
event-stream subscribers can exist at once, although the HTTP pool
accepts 8 concurrent connections); once two receivers are live,
`WATCH.receiver()` returns `None` and the `unwrap` panics the whole
process instead of rejecting only that request. -/
theorem c9_third_subscriber_panics (w : Watch Bool 2) :
    (2 ≤ w.receiverCount →
      button_events_handler w = .error Panic.unwrapFailed) ∧
    (∀ p, button_events_handler w = .ok p → w.receiverCount < 2) ∧
    2 < button_WEB_TASK_POOL_SIZE := by
  refine ⟨?_, ?_, by decide⟩
  · intro h
    simp [button_events_handler, Watch.receiver,
      show ¬ w.receiverCount < 2 from by omega]
  · intro p hp
    by_contra hlt
    simp [button_events_handler, Watch.receiver, hlt] at hp

/-- Claim C9, witness: on the watch state reached after two successful
subscriptions, a third `GET /events/on` panics. -/
theorem c9_witness :
    2 ≤ buttonWatchTwoSubs.receiverCount ∧
    button_events_handler buttonWatchTwoSubs = .error Panic.unwrapFailed :=
  ⟨by decide, (c9_third_subscriber_panics buttonWatchTwoSubs).1 (by decide)⟩

/-! Section: Claim C10 — the button toggle publishes the post-toggle flag -/

/-- Claim C10 (confirmed): for every button press, `update_task` toggles
the shared flag and publishes exactly the new (post-toggle) flag value —
the negation of the pre-toggle value — so the value seen by event
subscribers on the Watch equals the value `GET /properties/on` reads from
the shared flag. -/
theorem c10_published_equals_toggled_flag (flag : Bool) (w : Watch Bool 2) :
    (button_update_step flag w).2.value =
      some (button_update_step flag w).1 ∧
    (button_update_step flag w).1 = !flag ∧
    button_getOn_handler (button_update_step flag w).1 =
      to_json_response (jsonBool (!flag)) :=
  ⟨rfl, rfl, rfl⟩
